import Mathlib

/-!
Verification of the pgmetrics command-line front-end
(`src/cmd/pgmetrics/main.go`): option validation, encoder dispatch, and
output routing (pager / file / stdout), modelled as a shallow embedding.

External collaborators (the getopt library, the POSIX regexp compiler, the
collection engine, the three encoders, terminal detection, the filesystem
and subprocess machinery) are modelled by parameters and by explicit fault
flags; the control flow of `main.go` itself is translated faithfully.
-/

namespace Pgmetrics

/-- Subset of `collector.CollectConfig` (defined outside this repository, in
the collector package) that `main.go` reads or writes: the fields wired to
flags in `options.parse` and the connection defaults substituted into the
usage text.  Go `uint`/`uint16` fields are modelled as `Nat`. -/
structure CollectConfig where
  Host : String
  Port : Nat
  User : String
  TimeoutSec : Nat
  LockTimeoutMillisec : Nat
  Schema : String
  ExclSchema : String
  Table : String
  ExclTable : String
  Omit : List String
  UseExtendedQP : Bool
  deriving Repr, DecidableEq

/-- The `options` struct of `main.go`.  The Go struct embeds
`collector.CollectConfig`; here it is the named field `collectConfig`. -/
structure options where
  collectConfig : CollectConfig
  input : String
  help : String
  helpShort : Bool
  version : Bool
  format : String
  output : String
  tooLongSec : Nat
  nopager : Bool
  passNone : Bool
  queryProto : String
  deriving Repr, DecidableEq

/-- `options.defaults` from `main.go`.  `DefaultCollectConfig()` lives in the
collector package outside this repository, so the collection defaults are a
parameter; the fields set literally in `defaults()` are translated as
written. -/
def options.defaults (dcc : CollectConfig) : options :=
  { collectConfig := dcc
    input := ""
    help := ""
    helpShort := false
    version := false
    format := "human"
    output := ""
    tooLongSec := 60
    nopager := false
    passNone := false
    queryProto := "simple" }

/-- A POSIX-ERE compiler, abstracting Go `regexp.CompilePOSIX`: `none` means
the pattern compiles, `some e` means compilation fails with error text `e`.
The compiler is Go standard library, external to this repository, so it is a
parameter of the embedding. -/
def RegexCompiler := String → Option String

/-- `getRegexp` from `main.go`: a non-empty pattern is handed to the POSIX
compiler, an empty pattern is accepted without calling it. -/
def getRegexp (compile : RegexCompiler) (r : String) : Option String :=
  if r.length > 0 then compile r else none

/-- The validation failures of `options.parse` ("check values" section),
one constructor per `os.Exit(2)` site, in source order.  The regexp and
omit failures carry the text interpolated into their diagnostic. -/
inductive ValidationError where
  | badHelp
  | badFormat
  | badPort
  | badTimeout
  | badLockTimeout
  | badSchemaRe (e : String)
  | badExclSchemaRe (e : String)
  | badTableRe (e : String)
  | badExclTableRe (e : String)
  | badOmit (om : String)
  | badQueryProto
  deriving Repr, DecidableEq

/-- The diagnostic each validation failure prints to stderr before the usage
hint, exactly as in `main.go`.  The bad-help-mode failure prints no
diagnostic of its own: the source calls only `printTry()` there. -/
def ValidationError.diag : ValidationError → Option String
  | .badHelp => none
  | .badFormat => some "option -f/--format must be \"human\", \"json\" or \"csv\""
  | .badPort => some "port must be between 1 and 65535"
  | .badTimeout => some "timeout must be greater than 0"
  | .badLockTimeout => some "lock-timeout must be greater than 0"
  | .badSchemaRe e => some ("bad POSIX regular expression for -c/--schema: " ++ e)
  | .badExclSchemaRe e => some ("bad POSIX regular expression for -C/--exclude-schema: " ++ e)
  | .badTableRe e => some ("bad POSIX regular expression for -a/--table: " ++ e)
  | .badExclTableRe e => some ("bad POSIX regular expression for -A/--exclude-table: " ++ e)
  | .badOmit om => some ("unknown item \"" ++ om ++ "\" in --omit option")
  | .badQueryProto => some "option --query-proto must be \"simple\" or \"extended\""

/-- The message `printTry` writes to stderr. -/
def tryHint : String := "Try \"pgmetrics --help\" for more information."

/-- The eleven recognized `--omit` item names, in the order the membership
test of `main.go` lists them. -/
def omitVocab : List String :=
  ["tables", "indexes", "sequences", "functions", "extensions", "triggers",
   "statements", "log", "citus", "indexdefs", "bloat"]

/-- The `for _, om := range o.CollectConfig.Omit` loop of `options.parse`:
the first entry outside `omitVocab`, scanning left to right, or `none`. -/
def firstBadOmit : List String → Option String
  | [] => none
  | om :: rest => if om ∈ omitVocab then firstBadOmit rest else some om

/-- Outcome of `options.parse` after getopt has filled the struct: a
validation failure (`os.Exit(2)`), the help action (`os.Exit(0)`, carrying
the text printed to stdout), the version action (`os.Exit(0)`), or the
validated options returned to `main`. -/
inductive ParseOutcome where
  | fail (e : ValidationError)
  | helpExit (text : String)
  | versionExit
  | ok (o : options)
  deriving Repr, DecidableEq

/-- Rendering of the `usage` template: `options.usage` passes
`o.CollectConfig.Host`, `o.CollectConfig.Port` and `o.CollectConfig.User` to
`Fprintf`, which substitutes them at the three format verbs of the template.
The literal filler text of the template is irrelevant to every claim, so the
segments around the three verbs keep only the adjacent line; the
substitution structure is exactly that of the source. -/
def usageRendered (host : String) (port : Nat) (user : String) : String :=
  "pgmetrics collects PostgreSQL information and metrics.\n[...]\n" ++
  "  -h, --host=HOSTNAME          database server host or socket directory\n" ++
  "                                   (default: \"" ++ host ++ "\")\n" ++
  "  -p, --port=PORT              database server port (default: " ++
  toString port ++ ")\n" ++
  "  -U, --username=USERNAME      database user name (default: \"" ++
  user ++ "\")\n[...]\n"

/-- The constant `variables` help text of `main.go` (printed verbatim, no
substitution; its full literal content matters to no claim, so it is kept by
its first line). -/
def variablesText : String := "Environment variables:\n[...]\n"

/-- `options.usage` called with exit code 0 (the only way the help action
calls it): prints the usage template, with the resolved host, port and user
substituted, when `helpShort` is set or the help mode is "short"; prints the
variables text when the help mode is "variables". -/
def usageOutputZero (o : options) : String :=
  if o.helpShort ∨ o.help = "short" then
    usageRendered o.collectConfig.Host o.collectConfig.Port o.collectConfig.User
  else if o.help = "variables" then variablesText
  else ""

/-- The `help.Seen() && o.help == ""` normalization at the top of
`options.parse`: a bare `--help` with no value becomes help mode "short". -/
def normalizeHelp (helpSeen : Bool) (o : options) : options :=
  if helpSeen ∧ o.help = "" then { o with help := "short" } else o

/-- The "check values" / "help action" / "version action" section of
`options.parse`, translated check by check in source order.  Each `if` is
one validation; the query-proto `else` branch sets `UseExtendedQP`; then the
help action fires, then the version action, and otherwise the validated
options are returned. -/
def options.checkValues (compile : RegexCompiler) (o : options) : ParseOutcome :=
  if o.help ≠ "" ∧ o.help ≠ "short" ∧ o.help ≠ "variables" then
    .fail .badHelp
  else if o.format ≠ "human" ∧ o.format ≠ "json" ∧ o.format ≠ "csv" then
    .fail .badFormat
  else if o.collectConfig.Port = 0 then
    .fail .badPort
  else if o.collectConfig.TimeoutSec = 0 then
    .fail .badTimeout
  else if o.collectConfig.LockTimeoutMillisec = 0 then
    .fail .badLockTimeout
  else match getRegexp compile o.collectConfig.Schema with
  | some e => .fail (.badSchemaRe e)
  | none => match getRegexp compile o.collectConfig.ExclSchema with
  | some e => .fail (.badExclSchemaRe e)
  | none => match getRegexp compile o.collectConfig.Table with
  | some e => .fail (.badTableRe e)
  | none => match getRegexp compile o.collectConfig.ExclTable with
  | some e => .fail (.badExclTableRe e)
  | none => match firstBadOmit o.collectConfig.Omit with
  | some om => .fail (.badOmit om)
  | none =>
    if o.queryProto ≠ "simple" ∧ o.queryProto ≠ "extended" then
      .fail .badQueryProto
    else
      let o2 : options := { o with collectConfig :=
        { o.collectConfig with UseExtendedQP := o.queryProto == "extended" } }
      if o2.helpShort ∨ o2.help = "short" ∨ o2.help = "variables" then
        .helpExit (usageOutputZero o2)
      else if o2.version then
        .versionExit
      else
        .ok o2

/-- `options.parse` from the point where the flag values are in the struct:
the bare-help normalization followed by the checks and actions. -/
def options.parse (compile : RegexCompiler) (helpSeen : Bool) (o : options) :
    ParseOutcome :=
  options.checkValues compile (normalizeHelp helpSeen o)

/-- Which encoder `writeTo` invokes, one constructor per branch of its
switch statement. -/
inductive Encoder where
  | json
  | csv
  | human
  deriving Repr, DecidableEq

/-- The `switch o.format` dispatch of `writeTo` in `main.go`: the "json" and
"csv" cases select their encoders, every other format string falls to the
default branch, the human renderer. -/
def writeTo (format : String) : Encoder :=
  match format with
  | "json" => Encoder.json
  | "csv" => Encoder.csv
  | _ => Encoder.human

/-- The ambient system state `process` consults: the PAGER environment
variable, `exec.LookPath` success for "less" and "more", and
`term.IsTerminal` on stdout. -/
structure Sys where
  pagerEnv : String
  lessOnPath : Bool
  moreOnPath : Bool
  stdoutIsTerminal : Bool
  deriving Repr, DecidableEq

/-- Fault flags for the fallible external operations of `main` and
`process`; each `true` flag makes the corresponding Go call return an
error.  `encodeFails` stands for a fatal failure inside the selected
encoder (`enc.Encode` / `model2csv` / the human renderer), each of which
calls `log.Fatal`.  Each `...Err` field is the `Error()` text of the
corresponding failing call — a parameter of the embedding, since those
texts come from the operating system and the Go standard library, not from
this repository; `main.go` prints them via `log.Fatal`. -/
structure Faults where
  inputOpenFails : Bool
  inputDecodeFails : Bool
  collectFails : Bool
  stdinPipeFails : Bool
  startFails : Bool
  createFails : Bool
  encodeFails : Bool
  inputOpenErr : String
  inputDecodeErr : String
  collectErr : String
  stdinPipeErr : String
  startErr : String
  createErr : String
  encodeErr : String
  deriving Repr, DecidableEq

/-- Observable resource/output events of `process`, in the order they are
recorded in the trace.  `evStdinPipe` is emitted when `cmd.StdinPipe()`
succeeds (the pipe now exists), `evWait` records the pager subprocess exit
status that `cmd.Wait()` returned and the source discards. -/
inductive Ev where
  | evStdinPipe
  | evStart
  | evWrite
  | evClosePipe
  | evWait (pagerStatus : Nat)
  | evCreate (path : String)
  | evCloseFile
  deriving Repr, DecidableEq

/-- Pager program resolution at the top of `process`: the PAGER environment
value if non-empty, else "less" if on the search path, else "more" if on
the search path, else the empty string (no pager). -/
def resolvePager (s : Sys) : String :=
  if s.pagerEnv ≠ "" then s.pagerEnv
  else if s.lessOnPath then "less"
  else if s.moreOnPath then "more"
  else ""

/-- The `usePager` boolean of `process`, evaluated on the already-normalized
options: no explicit output path, no-pager flag unset, a pager resolved,
stdout a terminal. -/
def usePager (s : Sys) (o : options) : Bool :=
  o.output == "" && !o.nopager && resolvePager s != "" && s.stdoutIsTerminal

/-- The dash normalization at the top of `process`: `--output=-` becomes no
explicit output path. -/
def normOutput (o : options) : options :=
  if o.output = "-" then { o with output := "" } else o

/-- The three output destinations `process` can route to. -/
inductive Dest where
  | pager (prog : String)
  | file (path : String)
  | stdout
  deriving Repr, DecidableEq

/-- The destination selected by the branch structure of `process` (after
the dash normalization): the same `if usePager / else if output non-empty /
else` chain as the source. -/
def resolveDest (s : Sys) (o : options) : Dest :=
  if usePager s (normOutput o) then Dest.pager (resolvePager s)
  else if (normOutput o).output ≠ "" then Dest.file (normOutput o).output
  else Dest.stdout

/-- The body of `process` after the dash normalization, on options whose
output field is already normalized, as a trace of events plus an exit
status: `some 1` models `log.Fatal` (print and `os.Exit(1)`), `none` means
`process` returns to `main` normally.  The branches and the order of
operations mirror the source: pager path — pipe, start, write, close pipe,
wait (status discarded); file path — create, write, close; else write to
stdout.  A `log.Fatal` terminates at once: later closes do not happen. -/
def processCore (s : Sys) (f : Faults) (pagerStatus : Nat) (o : options) :
    List Ev × Option Nat :=
  if usePager s o then
    if f.stdinPipeFails then ([], some 1)
    else if f.startFails then ([Ev.evStdinPipe], some 1)
    else if f.encodeFails then ([Ev.evStdinPipe, Ev.evStart], some 1)
    else ([Ev.evStdinPipe, Ev.evStart, Ev.evWrite, Ev.evClosePipe,
           Ev.evWait pagerStatus], none)
  else if o.output ≠ "" then
    if f.createFails then ([], some 1)
    else if f.encodeFails then ([Ev.evCreate o.output], some 1)
    else ([Ev.evCreate o.output, Ev.evWrite, Ev.evCloseFile], none)
  else
    if f.encodeFails then ([], some 1)
    else ([Ev.evWrite], none)

/-- `process` from `main.go`: dash normalization, then the routing body. -/
def process (s : Sys) (f : Faults) (pagerStatus : Nat) (o : options) :
    List Ev × Option Nat :=
  processCore s f pagerStatus (normOutput o)

/-- The stderr line the routing body prints when one of its `log.Fatal`
sites fires, on options whose output field is already normalized: the same
branch structure as `processCore`, projecting each fatal site to the line
`log.Fatal` writes — the `"pgmetrics: "` prefix installed by
`log.SetPrefix` in `main`, followed by the failing call's error text.  An
empty list means no `log.Fatal` fired in the routing body. -/
def processFatalMsg (s : Sys) (f : Faults) (o : options) : List String :=
  if usePager s o then
    if f.stdinPipeFails then ["pgmetrics: " ++ f.stdinPipeErr]
    else if f.startFails then ["pgmetrics: " ++ f.startErr]
    else if f.encodeFails then ["pgmetrics: " ++ f.encodeErr]
    else []
  else if o.output ≠ "" then
    if f.createFails then ["pgmetrics: " ++ f.createErr]
    else if f.encodeFails then ["pgmetrics: " ++ f.encodeErr]
    else []
  else
    if f.encodeFails then ["pgmetrics: " ++ f.encodeErr]
    else []

/-- Result of one whole run of `main`: the lines written to stderr (the
validation diagnostics and usage hint, or the line a `log.Fatal` of a
runtime failure prints), the resource events of `process`, and the process
exit status. -/
structure RunResult where
  stderr : List String
  events : List Ev
  exitCode : Nat
  deriving Repr, DecidableEq

/-- `main` from `main.go`: parse (a validation failure prints its
diagnostic, if any, then the usage hint, and exits 2; help and version
print and exit 0), then either load the input file (an open failure is
`log.Fatal(err)`, a decode failure is `log.Fatalf` naming the input path,
both exit 1) or run the collector (a fatal collector failure, modelled
from the spec as the engine may fail fatally with a message, exits 1),
then `process` (whose `log.Fatal` sites print their error and exit 1); a
normal return from `main` exits 0.  Every `log.Fatal` line carries the
`"pgmetrics: "` prefix set by `log.SetPrefix`.  The interactive password
prompt is terminal I/O outside every claim and is not modelled. -/
def mainRun (compile : RegexCompiler) (helpSeen : Bool) (s : Sys) (f : Faults)
    (pagerStatus : Nat) (o : options) : RunResult :=
  match options.parse compile helpSeen o with
  | .fail e => { stderr := e.diag.toList ++ [tryHint], events := [], exitCode := 2 }
  | .helpExit _ => { stderr := [], events := [], exitCode := 0 }
  | .versionExit => { stderr := [], events := [], exitCode := 0 }
  | .ok o2 =>
    if o2.input ≠ "" then
      if f.inputOpenFails then
        { stderr := ["pgmetrics: " ++ f.inputOpenErr], events := [], exitCode := 1 }
      else if f.inputDecodeFails then
        { stderr := ["pgmetrics: " ++ (o2.input ++ ": " ++ f.inputDecodeErr)],
          events := [], exitCode := 1 }
      else
        let r := process s f pagerStatus o2
        { stderr := processFatalMsg s f (normOutput o2), events := r.1,
          exitCode := r.2.getD 0 }
    else
      if f.collectFails then
        { stderr := ["pgmetrics: " ++ f.collectErr], events := [], exitCode := 1 }
      else
        let r := process s f pagerStatus o2
        { stderr := processFatalMsg s f (normOutput o2), events := r.1,
          exitCode := r.2.getD 0 }

/-- A run that got past validation hit an I/O/runtime failure on its
executed path: on the input-file path an open or decode failure, on the
collect path a collector failure, and in either case a `log.Fatal` inside
the routing body (pipe, start, create or encode failure on the taken
branch). -/
def runtimeFailed (s : Sys) (f : Faults) (o : options) : Prop :=
  if o.input ≠ "" then
    f.inputOpenFails = true ∨ f.inputDecodeFails = true ∨
      processFatalMsg s f (normOutput o) ≠ []
  else
    f.collectFails = true ∨ processFatalMsg s f (normOutput o) ≠ []

/-- A concrete collection-default record, for witnesses: the shape
`DefaultCollectConfig` produces (non-zero port and timeouts, empty
filters). -/
def sampleCC : CollectConfig :=
  { Host := "/var/run/postgresql", Port := 5432, User := "postgres",
    TimeoutSec := 5, LockTimeoutMillisec := 50, Schema := "", ExclSchema := "",
    Table := "", ExclTable := "", Omit := [], UseExtendedQP := false }

/-- A POSIX compiler on which every pattern compiles. -/
def acceptAll : RegexCompiler := fun _ => none

/-- A POSIX compiler that rejects exactly the pattern "(", as Go's
`regexp.CompilePOSIX` does. -/
def rejectParen : RegexCompiler := fun r =>
  if r = "(" then some "missing closing )" else none

/-- A system state with a pager available ("less" on the path) and stdout a
terminal. -/
def sampleSys : Sys :=
  { pagerEnv := "", lessOnPath := true, moreOnPath := false,
    stdoutIsTerminal := true }

/-- The fault assignment under which every external operation succeeds
(the error texts are unused when every flag is false). -/
def noFaults : Faults :=
  { inputOpenFails := false, inputDecodeFails := false, collectFails := false,
    stdinPipeFails := false, startFails := false, createFails := false,
    encodeFails := false,
    inputOpenErr := "", inputDecodeErr := "", collectErr := "",
    stdinPipeErr := "", startErr := "", createErr := "", encodeErr := "" }

/-! ## Helper lemmas -/

/-- With no bare `--help` flag seen, the normalization leaves the options
unchanged. -/
theorem normalizeHelp_false (o : options) : normalizeHelp false o = o := by
  simp [normalizeHelp]

/-- An empty filter pattern never reaches the POSIX compiler. -/
theorem getRegexp_of_empty (compile : RegexCompiler) (r : String) (h : r = "") :
    getRegexp compile r = none := by
  subst h; rfl

/-- A non-empty filter pattern is handed to the POSIX compiler, whose verdict
is returned unchanged. -/
theorem getRegexp_of_nonempty (compile : RegexCompiler) (r : String)
    (h : r ≠ "") : getRegexp compile r = compile r := by
  unfold getRegexp
  rw [if_pos]
  have hlen : r.length ≠ 0 := by
    intro h0
    apply h
    apply String.ext
    have hdl : r.data.length = 0 := by rw [String.length_data]; exact h0
    simpa using List.length_eq_zero.mp hdl
  omega

/-- The `usePager` boolean holds exactly when all four of its conjuncts
hold. -/
theorem usePager_eq_true_iff (s : Sys) (o : options) :
    usePager s o = true ↔
      (o.output = "" ∧ o.nopager = false ∧ resolvePager s ≠ "" ∧
       s.stdoutIsTerminal = true) := by
  simp [usePager, Bool.and_eq_true, Bool.not_eq_true', and_assoc]

/-- The omit scan accepts a list exactly when every entry is in the
vocabulary. -/
theorem firstBadOmit_eq_none_iff (l : List String) :
    firstBadOmit l = none ↔ ∀ x ∈ l, x ∈ omitVocab := by
  induction l with
  | nil => simp [firstBadOmit]
  | cons x xs ih => by_cases hx : x ∈ omitVocab <;> simp [firstBadOmit, hx, ih]

/-- The omit scan reports the first entry outside the vocabulary. -/
theorem firstBadOmit_append_cons (l1 : List String) (x : String)
    (l2 : List String) (h1 : ∀ y ∈ l1, y ∈ omitVocab) (hx : x ∉ omitVocab) :
    firstBadOmit (l1 ++ x :: l2) = some x := by
  induction l1 with
  | nil => simp [firstBadOmit, hx]
  | cons y ys ih =>
    have hy : y ∈ omitVocab := h1 y (by simp)
    simp only [List.cons_append, firstBadOmit, if_pos hy]
    exact ih (fun z hz => h1 z (by simp [hz]))

/-- Every run of the routing body either returns normally or terminates via
`log.Fatal` with status 1. -/
theorem processCore_exit_none_or_one (s : Sys) (f : Faults) (p : Nat)
    (o : options) :
    (processCore s f p o).2 = none ∨ (processCore s f p o).2 = some 1 := by
  unfold processCore
  repeat' split
  all_goals simp

/-- The routing body prints no fatal line exactly when it returns
normally: `processFatalMsg` and `processCore` follow the same branches. -/
theorem processFatalMsg_eq_nil_iff (s : Sys) (f : Faults) (p : Nat)
    (o : options) :
    processFatalMsg s f o = [] ↔ (processCore s f p o).2 = none := by
  unfold processFatalMsg processCore
  repeat' split
  all_goals simp

/-- When the routing body does print a fatal line, it is a single line
carrying the pgmetrics log prefix. -/
theorem processFatalMsg_shape (s : Sys) (f : Faults) (o : options) :
    processFatalMsg s f o = [] ∨
    ∃ m, processFatalMsg s f o = ["pgmetrics: " ++ m] := by
  unfold processFatalMsg
  repeat' split
  all_goals first
    | exact Or.inl rfl
    | exact Or.inr ⟨_, rfl⟩

/-! ## Claim theorems -/

/-- Claim C1: the pager destination is chosen if and only if, after dash
normalization, no explicit output path remains, the no-pager flag is unset,
a pager program is resolvable, and stdout is a terminal; when stdout is not
a terminal the pager is never chosen; the PAGER environment value takes
priority in pager resolution, otherwise "less" is probed before "more". -/
theorem pager_eligibility (s : Sys) (o : options) :
    (∀ prog, resolveDest s o = Dest.pager prog ↔
      (prog = resolvePager s ∧ (normOutput o).output = "" ∧ o.nopager = false ∧
       resolvePager s ≠ "" ∧ s.stdoutIsTerminal = true)) ∧
    (s.stdoutIsTerminal = false → ∀ prog, resolveDest s o ≠ Dest.pager prog) ∧
    (s.pagerEnv ≠ "" → resolvePager s = s.pagerEnv) ∧
    (s.pagerEnv = "" ∧ s.lessOnPath = true → resolvePager s = "less") ∧
    (s.pagerEnv = "" ∧ s.lessOnPath = false ∧ s.moreOnPath = true →
      resolvePager s = "more") ∧
    (s.pagerEnv = "" ∧ s.lessOnPath = false ∧ s.moreOnPath = false →
      resolvePager s = "") := by
  have hnp : (normOutput o).nopager = o.nopager := by
    unfold normOutput; split <;> rfl
  refine ⟨?_, ?_, ?_, ?_, ?_, ?_⟩
  · intro prog
    unfold resolveDest
    constructor
    · intro h
      split at h
      case isTrue hup =>
        rw [usePager_eq_true_iff] at hup
        obtain ⟨ho, hn, hr, ht⟩ := hup
        cases h
        exact ⟨rfl, ho, by rw [← hnp]; exact hn, hr, ht⟩
      case isFalse hup => split at h <;> cases h
    · rintro ⟨hp, ho, hn, hr, ht⟩
      subst hp
      have hu : usePager s (normOutput o) = true := by
        rw [usePager_eq_true_iff]
        exact ⟨ho, by rw [hnp]; exact hn, hr, ht⟩
      simp [hu]
  · intro ht prog h
    unfold resolveDest at h
    split at h
    case isTrue hup =>
      rw [usePager_eq_true_iff] at hup
      rw [ht] at hup
      exact absurd hup.2.2.2 (by simp)
    case isFalse hup =>
      split at h <;> cases h
  · intro h; simp [resolvePager, h]
  · rintro ⟨h1, h2⟩; simp [resolvePager, h1, h2]
  · rintro ⟨h1, h2, h3⟩; simp [resolvePager, h1, h2, h3]
  · rintro ⟨h1, h2, h3⟩; simp [resolvePager, h1, h2, h3]

/-- Claim C9: an explicit output path of "-" resolves to exactly the same
destination, the same events and the same exit status as no explicit output
path, all other options equal. -/
theorem dash_output_equivalence (s : Sys) (f : Faults) (p : Nat)
    (o : options) :
    process s f p { o with output := "-" } =
      process s f p { o with output := "" } ∧
    resolveDest s { o with output := "-" } =
      resolveDest s { o with output := "" } := by
  have h : normOutput { o with output := "-" } =
      normOutput { o with output := "" } := by
    simp [normOutput]
  constructor
  · simp [process, h]
  · simp [resolveDest, h]

/-- Claim C10: the encoder dispatch of `writeTo` selects the JSON encoder
exactly on format "json", the CSV encoder exactly on format "csv", and the
human renderer (the default branch) on every other string; it returns
exactly one encoder per invocation. -/
theorem writeTo_dispatch (format : String) :
    (writeTo format = Encoder.json ↔ format = "json") ∧
    (writeTo format = Encoder.csv ↔ format = "csv") ∧
    (writeTo format = Encoder.human ↔ (format ≠ "json" ∧ format ≠ "csv")) := by
  by_cases hj : format = "json"
  · subst hj; simp [writeTo]
  · by_cases hc : format = "csv"
    · subst hc; simp [writeTo]
    · have hh : writeTo format = Encoder.human := by
        unfold writeTo
        split <;> simp_all
      simp [hh, hj, hc]

/-- Claim C7 (amended): on every normal-completion path of the output
routing, an opened pager input pipe is closed before waiting for the
subprocess, and an opened output file is closed before returning; on a
fatal error path (`log.Fatal`) the process terminates immediately without
the explicit close — see the counterexample. -/
theorem close_discipline_success_paths (s : Sys) (f : Faults) (p : Nat)
    (o : options) (hdone : (process s f p o).2 = none) :
    (Ev.evStdinPipe ∈ (process s f p o).1 →
       (process s f p o).1 =
         [Ev.evStdinPipe, Ev.evStart, Ev.evWrite, Ev.evClosePipe, Ev.evWait p]) ∧
    (∀ q, Ev.evCreate q ∈ (process s f p o).1 →
       (process s f p o).1 = [Ev.evCreate q, Ev.evWrite, Ev.evCloseFile]) := by
  unfold process processCore at *
  repeat' split at hdone
  all_goals simp_all

/-- Witness for C7: a successful pager run opens the pipe, starts the
pager, writes, closes the pipe and only then waits. -/
theorem close_discipline_success_paths_witness :
    (process sampleSys noFaults 0 (options.defaults sampleCC)).1 =
      [Ev.evStdinPipe, Ev.evStart, Ev.evWrite, Ev.evClosePipe, Ev.evWait 0] :=
  (close_discipline_success_paths sampleSys noFaults 0
    (options.defaults sampleCC) (by decide)).1 (by decide)

/-- Counterexample for C7 as stated: when starting the pager fails, the
already-created stdin pipe is never closed — the process terminates with
status 1 with no close event in the trace, so the pipe is not closed on
every exit path. -/
theorem close_on_error_path_cex :
    Ev.evStdinPipe ∈ (process sampleSys { noFaults with startFails := true } 0
      (options.defaults sampleCC)).1 ∧
    Ev.evClosePipe ∉ (process sampleSys { noFaults with startFails := true } 0
      (options.defaults sampleCC)).1 ∧
    (process sampleSys { noFaults with startFails := true } 0
      (options.defaults sampleCC)).2 = some 1 := by decide

/-- Claim C8: in the pager path, a failure establishing the stdin pipe or
starting the pager is fatal (exit 1); in the file path, a failure creating
the output file is fatal; and the pager subprocess exit status that
`cmd.Wait()` returns never influences the routing exit status or the tool
exit status. -/
theorem pager_failure_semantics (compile : RegexCompiler) (helpSeen : Bool)
    (s : Sys) (f : Faults) (p : Nat) (o : options) :
    (usePager s (normOutput o) = true → f.stdinPipeFails = true →
       (process s f p o).2 = some 1) ∧
    (usePager s (normOutput o) = true → f.stdinPipeFails = false →
       f.startFails = true → (process s f p o).2 = some 1) ∧
    (usePager s (normOutput o) = false → (normOutput o).output ≠ "" →
       f.createFails = true → (process s f p o).2 = some 1) ∧
    (∀ p1 p2, (process s f p1 o).2 = (process s f p2 o).2) ∧
    (∀ p1 p2, (mainRun compile helpSeen s f p1 o).exitCode =
              (mainRun compile helpSeen s f p2 o).exitCode) := by
  refine ⟨?_, ?_, ?_, ?_, ?_⟩
  · intro hu hf; simp [process, processCore, hu, hf]
  · intro hu hf hs; simp [process, processCore, hu, hf, hs]
  · intro hu ho hc; simp [process, processCore, hu, ho, hc]
  · intro p1 p2
    unfold process processCore
    repeat' split
    all_goals simp
  · intro p1 p2
    unfold mainRun
    cases options.parse compile helpSeen o <;> simp
    case ok o2 =>
      unfold process processCore
      repeat' split
      all_goals simp

/-- Claim C4: each of the four filter options fails validation, with exit
status 2 and a diagnostic naming that option and the compiler error, exactly
when its value is non-empty and the POSIX compiler rejects it; an empty or
compiling value passes; the checks run in the fixed order schema,
exclude-schema, table, exclude-table, each short-circuiting on its
failure. -/
theorem regex_filter_checks (compile : RegexCompiler) (s : Sys) (f : Faults)
    (p : Nat) (o : options)
    (hh : o.help = "" ∨ o.help = "short" ∨ o.help = "variables")
    (hf : o.format = "human" ∨ o.format = "json" ∨ o.format = "csv")
    (hp : o.collectConfig.Port ≠ 0)
    (ht : o.collectConfig.TimeoutSec ≠ 0)
    (hl : o.collectConfig.LockTimeoutMillisec ≠ 0) :
    (∀ e, getRegexp compile o.collectConfig.Schema = some e →
       options.checkValues compile o =
         ParseOutcome.fail (ValidationError.badSchemaRe e) ∧
       (ValidationError.badSchemaRe e).diag =
         some ("bad POSIX regular expression for -c/--schema: " ++ e) ∧
       (mainRun compile false s f p o).exitCode = 2) ∧
    (getRegexp compile o.collectConfig.Schema = none →
     ∀ e, getRegexp compile o.collectConfig.ExclSchema = some e →
       options.checkValues compile o =
         ParseOutcome.fail (ValidationError.badExclSchemaRe e) ∧
       (ValidationError.badExclSchemaRe e).diag =
         some ("bad POSIX regular expression for -C/--exclude-schema: " ++ e) ∧
       (mainRun compile false s f p o).exitCode = 2) ∧
    (getRegexp compile o.collectConfig.Schema = none →
     getRegexp compile o.collectConfig.ExclSchema = none →
     ∀ e, getRegexp compile o.collectConfig.Table = some e →
       options.checkValues compile o =
         ParseOutcome.fail (ValidationError.badTableRe e) ∧
       (ValidationError.badTableRe e).diag =
         some ("bad POSIX regular expression for -a/--table: " ++ e) ∧
       (mainRun compile false s f p o).exitCode = 2) ∧
    (getRegexp compile o.collectConfig.Schema = none →
     getRegexp compile o.collectConfig.ExclSchema = none →
     getRegexp compile o.collectConfig.Table = none →
     ∀ e, getRegexp compile o.collectConfig.ExclTable = some e →
       options.checkValues compile o =
         ParseOutcome.fail (ValidationError.badExclTableRe e) ∧
       (ValidationError.badExclTableRe e).diag =
         some ("bad POSIX regular expression for -A/--exclude-table: " ++ e) ∧
       (mainRun compile false s f p o).exitCode = 2) ∧
    (∀ r, r = "" → getRegexp compile r = none) ∧
    (∀ r, r ≠ "" → getRegexp compile r = compile r) := by
  refine ⟨?_, ?_, ?_, ?_, ?_, ?_⟩
  · intro e hse
    have hcv : options.checkValues compile o =
        ParseOutcome.fail (ValidationError.badSchemaRe e) := by
      rcases hh with hh|hh|hh <;> rcases hf with hf|hf|hf <;>
        simp [options.checkValues, hh, hf, hp, ht, hl, hse]
    have hparse : options.parse compile false o =
        ParseOutcome.fail (ValidationError.badSchemaRe e) := by
      rw [options.parse, normalizeHelp_false, hcv]
    exact ⟨hcv, rfl, by simp [mainRun, hparse]⟩
  · intro hs0 e hse
    have hcv : options.checkValues compile o =
        ParseOutcome.fail (ValidationError.badExclSchemaRe e) := by
      rcases hh with hh|hh|hh <;> rcases hf with hf|hf|hf <;>
        simp [options.checkValues, hh, hf, hp, ht, hl, hs0, hse]
    have hparse : options.parse compile false o =
        ParseOutcome.fail (ValidationError.badExclSchemaRe e) := by
      rw [options.parse, normalizeHelp_false, hcv]
    exact ⟨hcv, rfl, by simp [mainRun, hparse]⟩
  · intro hs0 hs1 e hse
    have hcv : options.checkValues compile o =
        ParseOutcome.fail (ValidationError.badTableRe e) := by
      rcases hh with hh|hh|hh <;> rcases hf with hf|hf|hf <;>
        simp [options.checkValues, hh, hf, hp, ht, hl, hs0, hs1, hse]
    have hparse : options.parse compile false o =
        ParseOutcome.fail (ValidationError.badTableRe e) := by
      rw [options.parse, normalizeHelp_false, hcv]
    exact ⟨hcv, rfl, by simp [mainRun, hparse]⟩
  · intro hs0 hs1 hs2 e hse
    have hcv : options.checkValues compile o =
        ParseOutcome.fail (ValidationError.badExclTableRe e) := by
      rcases hh with hh|hh|hh <;> rcases hf with hf|hf|hf <;>
        simp [options.checkValues, hh, hf, hp, ht, hl, hs0, hs1, hs2, hse]
    have hparse : options.parse compile false o =
        ParseOutcome.fail (ValidationError.badExclTableRe e) := by
      rw [options.parse, normalizeHelp_false, hcv]
    exact ⟨hcv, rfl, by simp [mainRun, hparse]⟩
  · exact getRegexp_of_empty compile
  · exact getRegexp_of_nonempty compile

/-- Witness for C4: a schema filter of "(" rejected by the compiler makes
validation fail with the schema-specific error and overall exit status 2. -/
theorem regex_filter_checks_witness :
    options.checkValues rejectParen
      (options.defaults { sampleCC with Schema := "(" }) =
      ParseOutcome.fail (ValidationError.badSchemaRe "missing closing )") ∧
    (mainRun rejectParen false sampleSys noFaults 0
      (options.defaults { sampleCC with Schema := "(" })).exitCode = 2 :=
  ⟨((regex_filter_checks rejectParen sampleSys noFaults 0
      (options.defaults { sampleCC with Schema := "(" })
      (by decide) (by decide) (by decide) (by decide) (by decide)).1
      "missing closing )" (by decide)).1,
   ((regex_filter_checks rejectParen sampleSys noFaults 0
      (options.defaults { sampleCC with Schema := "(" })
      (by decide) (by decide) (by decide) (by decide) (by decide)).1
      "missing closing )" (by decide)).2.2⟩

/-- Claim C5: an omit entry outside the eleven-name vocabulary makes
validation fail with exit status 2, naming the first such entry; a list
whose entries are all in the vocabulary (including the empty list) passes
the omit check. -/
theorem omit_vocabulary_check (compile : RegexCompiler) (s : Sys) (f : Faults)
    (p : Nat) (o : options)
    (hh : o.help = "" ∨ o.help = "short" ∨ o.help = "variables")
    (hf : o.format = "human" ∨ o.format = "json" ∨ o.format = "csv")
    (hp : o.collectConfig.Port ≠ 0)
    (ht : o.collectConfig.TimeoutSec ≠ 0)
    (hl : o.collectConfig.LockTimeoutMillisec ≠ 0)
    (hs0 : getRegexp compile o.collectConfig.Schema = none)
    (hs1 : getRegexp compile o.collectConfig.ExclSchema = none)
    (hs2 : getRegexp compile o.collectConfig.Table = none)
    (hs3 : getRegexp compile o.collectConfig.ExclTable = none) :
    (∀ om, firstBadOmit o.collectConfig.Omit = some om →
       options.checkValues compile o =
         ParseOutcome.fail (ValidationError.badOmit om) ∧
       (ValidationError.badOmit om).diag =
         some ("unknown item \"" ++ om ++ "\" in --omit option") ∧
       (mainRun compile false s f p o).exitCode = 2) ∧
    (firstBadOmit o.collectConfig.Omit = none →
       ∀ om, options.checkValues compile o ≠
         ParseOutcome.fail (ValidationError.badOmit om)) ∧
    (∀ l : List String, firstBadOmit l = none ↔ ∀ x ∈ l, x ∈ omitVocab) ∧
    (∀ (l1 : List String) (x : String) (l2 : List String),
       (∀ y ∈ l1, y ∈ omitVocab) → x ∉ omitVocab →
       firstBadOmit (l1 ++ x :: l2) = some x) ∧
    firstBadOmit [] = none ∧
    omitVocab.length = 11 := by
  refine ⟨?_, ?_, firstBadOmit_eq_none_iff, firstBadOmit_append_cons, rfl, rfl⟩
  · intro om hom
    have hcv : options.checkValues compile o =
        ParseOutcome.fail (ValidationError.badOmit om) := by
      rcases hh with hh|hh|hh <;> rcases hf with hf|hf|hf <;>
        simp [options.checkValues, hh, hf, hp, ht, hl, hs0, hs1, hs2, hs3, hom]
    have hparse : options.parse compile false o =
        ParseOutcome.fail (ValidationError.badOmit om) := by
      rw [options.parse, normalizeHelp_false, hcv]
    exact ⟨hcv, rfl, by simp [mainRun, hparse]⟩
  · intro hom om
    rcases hh with hh|hh|hh <;> rcases hf with hf|hf|hf <;>
      simp [options.checkValues, hh, hf, hp, ht, hl, hs0, hs1, hs2, hs3, hom]
    all_goals repeat' split
    all_goals simp

/-- Witness for C5: the omit list ["tables", "bogus"] fails on its first
unknown entry "bogus" with exit status 2. -/
theorem omit_vocabulary_check_witness :
    options.checkValues acceptAll
      (options.defaults { sampleCC with Omit := ["tables", "bogus"] }) =
      ParseOutcome.fail (ValidationError.badOmit "bogus") ∧
    (mainRun acceptAll false sampleSys noFaults 0
      (options.defaults { sampleCC with Omit := ["tables", "bogus"] })).exitCode = 2 :=
  ⟨((omit_vocabulary_check acceptAll sampleSys noFaults 0
      (options.defaults { sampleCC with Omit := ["tables", "bogus"] })
      (by decide) (by decide) (by decide) (by decide) (by decide)
      (by decide) (by decide) (by decide) (by decide)).1
      "bogus" (by decide)).1,
   ((omit_vocabulary_check acceptAll sampleSys noFaults 0
      (options.defaults { sampleCC with Omit := ["tables", "bogus"] })
      (by decide) (by decide) (by decide) (by decide) (by decide)
      (by decide) (by decide) (by decide) (by decide)).1
      "bogus" (by decide)).2.2⟩

/-- Claim C6: the query-protocol option is accepted exactly when it is
"simple" or "extended"; any other value fails with exit status 2 and the
diagnostic listing the two valid values; on acceptance the validated
UseExtendedQP boolean is true exactly when the option is "extended". -/
theorem query_proto_check (compile : RegexCompiler) (s : Sys) (f : Faults)
    (p : Nat) (o : options)
    (hh : o.help = "" ∨ o.help = "short" ∨ o.help = "variables")
    (hf : o.format = "human" ∨ o.format = "json" ∨ o.format = "csv")
    (hp : o.collectConfig.Port ≠ 0)
    (ht : o.collectConfig.TimeoutSec ≠ 0)
    (hl : o.collectConfig.LockTimeoutMillisec ≠ 0)
    (hs0 : getRegexp compile o.collectConfig.Schema = none)
    (hs1 : getRegexp compile o.collectConfig.ExclSchema = none)
    (hs2 : getRegexp compile o.collectConfig.Table = none)
    (hs3 : getRegexp compile o.collectConfig.ExclTable = none)
    (hom : firstBadOmit o.collectConfig.Omit = none) :
    ((o.queryProto ≠ "simple" ∧ o.queryProto ≠ "extended") →
       options.checkValues compile o =
         ParseOutcome.fail ValidationError.badQueryProto ∧
       ValidationError.badQueryProto.diag =
         some "option --query-proto must be \"simple\" or \"extended\"" ∧
       (mainRun compile false s f p o).exitCode = 2) ∧
    ((o.queryProto = "simple" ∨ o.queryProto = "extended") →
       o.helpShort = false → o.help = "" → o.version = false →
       options.checkValues compile o = ParseOutcome.ok
         { o with collectConfig :=
             { o.collectConfig with
                 UseExtendedQP := o.queryProto == "extended" } }) ∧
    (∀ o2, options.checkValues compile o = ParseOutcome.ok o2 →
       (o2.collectConfig.UseExtendedQP = true ↔ o.queryProto = "extended")) := by
  refine ⟨?_, ?_, ?_⟩
  · intro hq
    have hcv : options.checkValues compile o =
        ParseOutcome.fail ValidationError.badQueryProto := by
      rcases hh with hh|hh|hh <;> rcases hf with hf|hf|hf <;>
        simp [options.checkValues, hh, hf, hp, ht, hl, hs0, hs1, hs2, hs3,
              hom, hq.1, hq.2]
    have hparse : options.parse compile false o =
        ParseOutcome.fail ValidationError.badQueryProto := by
      rw [options.parse, normalizeHelp_false, hcv]
    exact ⟨hcv, rfl, by simp [mainRun, hparse]⟩
  · intro hq hhs hhh hv
    rcases hq with hq|hq <;> rcases hf with hf|hf|hf <;>
      simp [options.checkValues, hhh, hf, hp, ht, hl, hs0, hs1, hs2, hs3,
            hom, hq, hhs, hv]
  · intro o2 hok
    rcases hh with hh|hh|hh <;> rcases hf with hf|hf|hf <;>
      simp [options.checkValues, hh, hf, hp, ht, hl, hs0, hs1, hs2, hs3,
            hom] at hok
    all_goals repeat' split at hok
    all_goals try cases hok
    all_goals simp

/-- Witness for C6: the value "bogus" makes validation fail with the
query-proto diagnostic and exit status 2. -/
theorem query_proto_check_witness :
    options.checkValues acceptAll
      { options.defaults sampleCC with queryProto := "bogus" } =
      ParseOutcome.fail ValidationError.badQueryProto ∧
    (mainRun acceptAll false sampleSys noFaults 0
      { options.defaults sampleCC with queryProto := "bogus" }).exitCode = 2 :=
  ⟨((query_proto_check acceptAll sampleSys noFaults 0
      { options.defaults sampleCC with queryProto := "bogus" }
      (by decide) (by decide) (by decide) (by decide) (by decide)
      (by decide) (by decide) (by decide) (by decide) (by decide)).1
      (by decide)).1,
   ((query_proto_check acceptAll sampleSys noFaults 0
      { options.defaults sampleCC with queryProto := "bogus" }
      (by decide) (by decide) (by decide) (by decide) (by decide)
      (by decide) (by decide) (by decide) (by decide) (by decide)).1
      (by decide)).2.2⟩

/-- Claim C2 (amended): when help is requested with a recognized mode and
every other validation passes, the help text is printed and the process
exits 0; a bare help request is normalized to the "short" mode; the printed
usage embeds the resolved default host, port and user rather than
hard-coded literals.  The help action runs after the value checks, so with
an invalid other option the process exits 2 instead — see the
counterexample. -/
theorem help_action_after_validation (compile : RegexCompiler) (s : Sys)
    (f : Faults) (p : Nat) (o : options)
    (hh : o.help = "short" ∨ o.help = "variables")
    (hf : o.format = "human" ∨ o.format = "json" ∨ o.format = "csv")
    (hp : o.collectConfig.Port ≠ 0)
    (ht : o.collectConfig.TimeoutSec ≠ 0)
    (hl : o.collectConfig.LockTimeoutMillisec ≠ 0)
    (hs0 : getRegexp compile o.collectConfig.Schema = none)
    (hs1 : getRegexp compile o.collectConfig.ExclSchema = none)
    (hs2 : getRegexp compile o.collectConfig.Table = none)
    (hs3 : getRegexp compile o.collectConfig.ExclTable = none)
    (hom : firstBadOmit o.collectConfig.Omit = none)
    (hq : o.queryProto = "simple" ∨ o.queryProto = "extended") :
    (∃ text, options.checkValues compile o = ParseOutcome.helpExit text) ∧
    (o.helpShort = true ∨ o.help = "short" →
       options.checkValues compile o = ParseOutcome.helpExit
         (usageRendered o.collectConfig.Host o.collectConfig.Port
           o.collectConfig.User)) ∧
    (o.helpShort = false → o.help = "variables" →
       options.checkValues compile o = ParseOutcome.helpExit variablesText) ∧
    (mainRun compile false s f p o).exitCode = 0 ∧
    (∀ o0 : options, o0.help = "" →
       normalizeHelp true o0 = { o0 with help := "short" }) := by
  have hex : ∃ text, options.checkValues compile o = ParseOutcome.helpExit text := by
    by_cases hhs : o.helpShort = true
    · refine ⟨usageRendered o.collectConfig.Host o.collectConfig.Port
        o.collectConfig.User, ?_⟩
      rcases hh with hh|hh <;> rcases hf with hf|hf|hf <;> rcases hq with hq|hq <;>
        simp [options.checkValues, usageOutputZero, hh, hf, hp, ht, hl,
              hs0, hs1, hs2, hs3, hom, hq, hhs]
    · rcases hh with hh|hh
      · refine ⟨usageRendered o.collectConfig.Host o.collectConfig.Port
          o.collectConfig.User, ?_⟩
        rcases hf with hf|hf|hf <;> rcases hq with hq|hq <;>
          simp [options.checkValues, usageOutputZero, hh, hf, hp, ht, hl,
                hs0, hs1, hs2, hs3, hom, hq, hhs]
      · refine ⟨variablesText, ?_⟩
        rcases hf with hf|hf|hf <;> rcases hq with hq|hq <;>
          simp [options.checkValues, usageOutputZero, hh, hf, hp, ht, hl,
                hs0, hs1, hs2, hs3, hom, hq, hhs]
  refine ⟨hex, ?_, ?_, ?_, ?_⟩
  · intro h2
    rcases h2 with hhs|hhs
    · rcases hh with hh|hh <;> rcases hf with hf|hf|hf <;> rcases hq with hq|hq <;>
        simp [options.checkValues, usageOutputZero, hh, hf, hp, ht, hl,
              hs0, hs1, hs2, hs3, hom, hq, hhs]
    · rcases hf with hf|hf|hf <;> rcases hq with hq|hq <;>
        simp [options.checkValues, usageOutputZero, hhs, hf, hp, ht, hl,
              hs0, hs1, hs2, hs3, hom, hq]
  · intro hhs hhv
    rcases hf with hf|hf|hf <;> rcases hq with hq|hq <;>
      simp [options.checkValues, usageOutputZero, hhv, hf, hp, ht, hl,
            hs0, hs1, hs2, hs3, hom, hq, hhs]
  · obtain ⟨text, ht2⟩ := hex
    have hparse : options.parse compile false o = ParseOutcome.helpExit text := by
      rw [options.parse, normalizeHelp_false, ht2]
    simp [mainRun, hparse]
  · intro o0 h0
    simp [normalizeHelp, h0]

/-- Witness for C2 (amended): with help mode "short" and all other options
valid, the run prints the usage with the resolved connection defaults and
exits 0. -/
theorem help_action_after_validation_witness :
    (mainRun acceptAll false sampleSys noFaults 0
      { options.defaults sampleCC with help := "short" }).exitCode = 0 :=
  (help_action_after_validation acceptAll sampleSys noFaults 0
    { options.defaults sampleCC with help := "short" }
    (by decide) (by decide) (by decide) (by decide) (by decide)
    (by decide) (by decide) (by decide) (by decide) (by decide)
    (by decide)).2.2.2.1

/-- Counterexample for C2 as stated: a bare help request (normalized to the
recognized "short" mode) combined with an invalid format exits with status
2, not 0 — the help action runs only after the format check, so the exit
status is not 0 "regardless of the values of the other options". -/
theorem help_requested_invalid_format_cex :
    (normalizeHelp true
      { options.defaults sampleCC with format := "bogus" }).help = "short" ∧
    (mainRun acceptAll true sampleSys noFaults 0
      { options.defaults sampleCC with format := "bogus" }).exitCode = 2 := by
  decide

/-- Claim C3 (amended): a run exits 2 exactly when option validation
fails; every validation failure prints its diagnostic (if it has one)
followed by the usage hint and exits 2, and the bad-help-mode failure is
the one validation failure that prints no diagnostic of its own, only the
hint; a run that passed validation exits 1 exactly when an I/O/runtime
failure occurs on its executed path (input open, input decode, collector,
or a pager-pipe/start, file-create or encode failure inside the routing
body), and every such failure prints a single descriptive message with the
pgmetrics log prefix — the decode failure naming the offending input path;
exits with status 1 come only from runs whose validation succeeded; every
exit status is 0, 1 or 2. -/
theorem exit_code_two_tier (compile : RegexCompiler) (helpSeen : Bool)
    (s : Sys) (f : Faults) (p : Nat) (o : options) :
    ((mainRun compile helpSeen s f p o).exitCode = 2 ↔
       ∃ e, options.parse compile helpSeen o = ParseOutcome.fail e) ∧
    (∀ e, options.parse compile helpSeen o = ParseOutcome.fail e →
       (mainRun compile helpSeen s f p o).stderr = e.diag.toList ++ [tryHint] ∧
       (mainRun compile helpSeen s f p o).exitCode = 2) ∧
    (∀ o2, options.parse compile helpSeen o = ParseOutcome.ok o2 →
       ((mainRun compile helpSeen s f p o).exitCode = 1 ↔ runtimeFailed s f o2)) ∧
    (∀ o2, options.parse compile helpSeen o = ParseOutcome.ok o2 →
       (mainRun compile helpSeen s f p o).exitCode = 1 →
       ∃ m, (mainRun compile helpSeen s f p o).stderr = ["pgmetrics: " ++ m]) ∧
    (∀ o2, options.parse compile helpSeen o = ParseOutcome.ok o2 →
       o2.input ≠ "" → f.inputOpenFails = true →
       (mainRun compile helpSeen s f p o).exitCode = 1 ∧
       (mainRun compile helpSeen s f p o).stderr =
         ["pgmetrics: " ++ f.inputOpenErr]) ∧
    (∀ o2, options.parse compile helpSeen o = ParseOutcome.ok o2 →
       o2.input ≠ "" → f.inputOpenFails = false → f.inputDecodeFails = true →
       (mainRun compile helpSeen s f p o).exitCode = 1 ∧
       (mainRun compile helpSeen s f p o).stderr =
         ["pgmetrics: " ++ (o2.input ++ ": " ++ f.inputDecodeErr)]) ∧
    (∀ o2, options.parse compile helpSeen o = ParseOutcome.ok o2 →
       o2.input = "" → f.collectFails = true →
       (mainRun compile helpSeen s f p o).exitCode = 1 ∧
       (mainRun compile helpSeen s f p o).stderr =
         ["pgmetrics: " ++ f.collectErr]) ∧
    ((mainRun compile helpSeen s f p o).exitCode = 1 →
       ∃ o2, options.parse compile helpSeen o = ParseOutcome.ok o2) ∧
    ((mainRun compile helpSeen s f p o).exitCode = 0 ∨
     (mainRun compile helpSeen s f p o).exitCode = 1 ∨
     (mainRun compile helpSeen s f p o).exitCode = 2) ∧
    ValidationError.badHelp.diag = none ∧
    (∀ e : ValidationError, e ≠ ValidationError.badHelp → e.diag ≠ none) := by
  have hex01 : ∀ o2, options.parse compile helpSeen o = ParseOutcome.ok o2 →
      (mainRun compile helpSeen s f p o).exitCode = 0 ∨
      (mainRun compile helpSeen s f p o).exitCode = 1 := by
    intro o2 hok
    rcases processCore_exit_none_or_one s f p (normOutput o2) with hpe | hpe <;>
      by_cases hi : o2.input ≠ "" <;>
      by_cases h1 : f.inputOpenFails = true <;>
      by_cases h2 : f.inputDecodeFails = true <;>
      by_cases h3 : f.collectFails = true <;>
      simp [mainRun, hok, process, hi, h1, h2, h3, hpe]
  refine ⟨?_, ?_, ?_, ?_, ?_, ?_, ?_, ?_, ?_, rfl, ?_⟩
  · cases hpr : options.parse compile helpSeen o with
    | fail e => simp [mainRun, hpr]
    | helpExit t => simp [mainRun, hpr]
    | versionExit => simp [mainRun, hpr]
    | ok o2 =>
      rcases hex01 o2 hpr with h | h <;> rw [h] <;> simp [hpr]
  · intro e he
    simp [mainRun, he]
  · intro o2 hok
    have hfm := processFatalMsg_eq_nil_iff s f p (normOutput o2)
    rcases processCore_exit_none_or_one s f p (normOutput o2) with hpe | hpe <;>
      by_cases hi : o2.input ≠ "" <;>
      by_cases h1 : f.inputOpenFails = true <;>
      by_cases h2 : f.inputDecodeFails = true <;>
      by_cases h3 : f.collectFails = true <;>
      simp [mainRun, hok, process, runtimeFailed, hi, h1, h2, h3, hpe, hfm]
  · intro o2 hok h1e
    by_cases hi : o2.input ≠ ""
    · by_cases h1 : f.inputOpenFails = true
      · exact ⟨f.inputOpenErr, by simp [mainRun, hok, hi, h1]⟩
      · by_cases h2 : f.inputDecodeFails = true
        · exact ⟨o2.input ++ ": " ++ f.inputDecodeErr,
            by simp [mainRun, hok, hi, h1, h2]⟩
        · rcases processFatalMsg_shape s f (normOutput o2) with hsh | ⟨m, hm⟩
          · exfalso
            have hfm := (processFatalMsg_eq_nil_iff s f p (normOutput o2)).mp hsh
            simp [mainRun, hok, process, hi, h1, h2, hfm] at h1e
          · exact ⟨m, by simp [mainRun, hok, process, hi, h1, h2, hm]⟩
    · by_cases h3 : f.collectFails = true
      · exact ⟨f.collectErr, by simp [mainRun, hok, hi, h3]⟩
      · rcases processFatalMsg_shape s f (normOutput o2) with hsh | ⟨m, hm⟩
        · exfalso
          have hfm := (processFatalMsg_eq_nil_iff s f p (normOutput o2)).mp hsh
          simp [mainRun, hok, process, hi, h3, hfm] at h1e
        · exact ⟨m, by simp [mainRun, hok, process, hi, h3, hm]⟩
  · intro o2 hok hi h1
    simp [mainRun, hok, hi, h1]
  · intro o2 hok hi h1 h2
    simp [mainRun, hok, hi, h1, h2]
  · intro o2 hok hi h3
    simp [mainRun, hok, hi, h3]
  · cases hpr : options.parse compile helpSeen o with
    | fail e => simp [mainRun, hpr]
    | helpExit t => simp [mainRun, hpr]
    | versionExit => simp [mainRun, hpr]
    | ok o2 => intro _; exact ⟨o2, rfl⟩
  · cases hpr : options.parse compile helpSeen o with
    | fail e => simp [mainRun, hpr]
    | helpExit t => simp [mainRun, hpr]
    | versionExit => simp [mainRun, hpr]
    | ok o2 => rcases hex01 o2 hpr with h | h <;> simp [h]
  · intro e he
    cases e <;> first
      | exact absurd rfl he
      | simp [ValidationError.diag]

/-- Counterexample for C3 as stated: the bad-help-mode validation failure
(help value "bogus") exits 2 printing only the usage hint — no diagnostic
message precedes it, so not every validation failure "prints a diagnostic
plus a short usage hint". -/
theorem badhelp_prints_no_diagnostic_cex :
    mainRun acceptAll false sampleSys noFaults 0
      { options.defaults sampleCC with help := "bogus" } =
      { stderr := [tryHint], events := [], exitCode := 2 } := by
  decide

end Pgmetrics
